import Mathlib

/-!
Verification of the DLPack tensor wrapper of
`fast_transformers/core/tensor.h` (namespace `fast_transformers::core`).

The header defines a factory `CreateDLPackTensor<T>` building a
`DLManagedTensor`, and an owning handle class `Tensor` wrapping it with
metadata queries (`n_dim`, `shape`, `numel`, `device_type`), typed access
(`data<T>`, `mutableData<T>` guarded by `EnforceDataType<T>`), ownership
export (`ToDLPack`) and a diagnostic `Print<T>`.

Modelling conventions:
- the `shape` array together with the `ndim` field is embedded as a
  `List Int`; `ndim` is its length;
- machine integers are embedded as `Nat`/`Int` with explicit wrapping:
  `wrap32` models narrowing to a 32-bit signed `int`, `wrap64` an
  `int64_t`, and `toSizeT` the conversion of an `int64_t`/`int` value to
  the 64-bit unsigned `size_t`;
- an operation of the handle returns an `OpOutcome`: a value, a raised
  enforcement failure, or `nullDeref` when the source would dereference
  the null internal pointer of an already-exported handle (undefined
  behaviour in C++, made explicit here);
- the pointer stored in `dl_tensor.data` is embedded as an opaque `Nat`
  address.
-/

namespace FT

/-- DLPack type code for signed integers (`kDLInt` in dlpack.h). -/
def kDLInt : Nat := 0

/-- DLPack type code for unsigned integers (`kDLUInt` in dlpack.h). -/
def kDLUInt : Nat := 1

/-- DLPack type code for floating point (`kDLFloat` in dlpack.h). -/
def kDLFloat : Nat := 2

/-- DLPack device type for CPU (`kDLCPU` in dlpack.h). -/
def kDLCPU : Nat := 1

/-- The DLPack dtype descriptor `DLDataType`: type code, bit width, lanes. -/
structure DLDataType where
  code : Nat
  bits : Nat
  lanes : Nat
deriving DecidableEq

/-- The DLPack device descriptor `DLContext`: device type and id. -/
structure DLContext where
  device_type : Nat
  device_id : Nat
deriving DecidableEq

/-- The DLPack tensor struct `DLTensor`.  The `shape` array plus the
`ndim` count are embedded as a single `List Int` (entries are `int64_t`
values); `data` is an opaque buffer address; `strides` is the optional
strides array (null in the source becomes `none`). -/
structure DLTensor where
  data : Nat
  ctx : DLContext
  shape : List Int
  dtype : DLDataType
  strides : Option (List Int)
  byte_offset : Nat
deriving DecidableEq

/-- The DLPack managed struct `DLManagedTensor` (the deleter function
pointer carries no observable data and is not embedded). -/
structure DLManagedTensor where
  dl_tensor : DLTensor
deriving DecidableEq

/-- The supported element types: the three `DataTypeTrait`
specializations of tensor.h (`float`, `int`, `int64_t`). -/
inductive CType
  | float32
  | int32
  | int64
deriving DecidableEq

/-- The registered DLPack type code of each supported element type
(`DataTypeTrait<T>::DLPackTypeCode`, tensor.h lines 26-36). -/
def DataTypeTraitCode : CType → Nat
  | CType.float32 => kDLFloat
  | CType.int32 => kDLInt
  | CType.int64 => kDLInt

/-- Byte size of each supported element type (`sizeof(T)`). -/
def sizeofC : CType → Nat
  | CType.float32 => 4
  | CType.int32 => 4
  | CType.int64 => 8

/-- `details::IsDataType<T>(dt)` (tensor.h lines 38-41): the stored code
equals the registered code and the stored bit width is 0 or matches
`sizeof(T) * 8`. -/
def IsDataType (ct : CType) (dt : DLDataType) : Bool :=
  DataTypeTraitCode ct == dt.code && (dt.bits == 0 || dt.bits == sizeofC ct * 8)

/-- Modelled from the spec: the error taxonomy of section 7.  The
`FT_ENFORCE` macros come from `fast_transformers/core/enforce.h`, which
is not among the sources here; the spec classifies their failures as
`InvalidArgument` (malformed construction input), `Precondition`
(operation on a handle in the wrong state) and `TypeMismatch` (requested
element type or nonzero byte offset incompatible with the descriptor). -/
inductive FTError
  | invalidArgument
  | precondition
  | typeMismatch
deriving DecidableEq

/-- Outcome of one handle operation: a result, a raised enforcement
failure, or a dereference of the null internal pointer (source: undefined
behaviour on an already-exported handle). -/
inductive OpOutcome (α : Type)
  | ok (a : α)
  | enforceFail (e : FTError)
  | nullDeref
deriving DecidableEq

/-- Narrowing of an integer value to a 32-bit signed `int`
(two's-complement wrap-around). -/
def wrap32 (x : Int) : Int := (x + 2 ^ 31) % 2 ^ 32 - 2 ^ 31

/-- Narrowing of an integer value to a 64-bit signed `int64_t`
(two's-complement wrap-around). -/
def wrap64 (x : Int) : Int := (x + 2 ^ 63) % 2 ^ 64 - 2 ^ 63

/-- Conversion of a signed integer value to the 64-bit unsigned `size_t`
(reduction modulo 2^64). -/
def toSizeT (x : Int) : Nat := (x % 2 ^ 64).toNat

/-- The `numel` computed by the factory (tensor.h lines 65-66):
`std::accumulate(shape_list.begin(), shape_list.end(), 1,
std::multiplies<int64_t>())`.  The accumulator type of `std::accumulate`
is deduced from the literal `1`, i.e. `int`: each step multiplies in
`int64_t` but narrows the result back to 32-bit `int` (`wrap32`); the
final `int` value is then converted to `size_t`. -/
def factoryNumel (shape_list : List Int) : Nat :=
  toSizeT (shape_list.foldl (fun acc d => wrap32 (acc * d)) 1)

/-- The `numel` the factory would compute with a genuinely 64-bit
accumulator, as the spec describes it ("using a 64-bit-safe
accumulator"): the same accumulation with every intermediate kept as an
`int64_t`.  Stated for refinement comparison with `factoryNumel`. -/
def factoryNumelSpec (shape_list : List Int) : Nat :=
  toSizeT (shape_list.foldl (fun acc d => wrap64 (acc * d)) 1)

/-- Modelled from the spec: the external Aligned Allocator
(`align_alloc_t<T>(numel)`, spec section 4.4), out of scope of the
sources.  It is modelled as returning a nonzero address determined by the
request; no claim depends on the address value itself. -/
def align_alloc_t (elemBytes : Nat) (numel : Nat) : Nat :=
  16 * (elemBytes * numel) + 16

/-- The descriptor built by `CreateDLPackTensor<T>` (tensor.h lines
51-70): shape copied from the argument list, context `{kDLCPU, 0}`, dtype
`{code, sizeof(T)*8, 1}` from the type registry, null strides, zero byte
offset, data buffer from the aligned allocator sized by `factoryNumel`. -/
def mkDescriptor (ct : CType) (shape_list : List Int) : DLManagedTensor :=
  ⟨⟨align_alloc_t (sizeofC ct) (factoryNumel shape_list),
    ⟨kDLCPU, 0⟩,
    shape_list,
    ⟨DataTypeTraitCode ct, sizeofC ct * 8, 1⟩,
    none,
    0⟩⟩

/-- `CreateDLPackTensor<T>(shape_list)` (tensor.h lines 47-71): rejects an
empty shape list via `FT_ENFORCE_NE(shape_list.size(), 0, ...)` (spec
class: InvalidArgument), otherwise returns the freshly built managed
descriptor. -/
def CreateDLPackTensor (ct : CType) (shape_list : List Int) :
    OpOutcome DLManagedTensor :=
  if shape_list.length = 0 then OpOutcome.enforceFail FTError.invalidArgument
  else OpOutcome.ok (mkDescriptor ct shape_list)

/-- One allocation performed by the factory: the managed struct
(`new DLManagedTensor`), the shape array (`new int64_t[n]`), or the data
buffer (`align_alloc_t<T>(numel)`). -/
inductive Alloc
  | managedStruct
  | shapeArray (len : Nat)
  | dataBuffer (elemBytes : Nat) (numel : Nat)
deriving DecidableEq

/-- The ordered allocation trace of `CreateDLPackTensor<T>`: the enforce
on the shape list size runs first (tensor.h line 50), so a rejected call
performs no allocation; an accepted call allocates the managed struct,
the shape array, and a data buffer of `factoryNumel` elements. -/
def CreateDLPackTensorAllocs (ct : CType) (shape_list : List Int) :
    List Alloc :=
  if shape_list.length = 0 then []
  else [Alloc.managedStruct, Alloc.shapeArray shape_list.length,
    Alloc.dataBuffer (sizeofC ct) (factoryNumel shape_list)]

/-- The handle class `Tensor` (tensor.h line 73): a unique_ptr to a
managed descriptor, `none` once exported (released). -/
structure Tensor where
  tensor_ : Option DLManagedTensor
deriving DecidableEq

/-- The dimension count of a descriptor: the `ndim` field, which the
factory keeps equal to the length of the shape array. -/
def DLTensor.ndim (t : DLTensor) : Nat := t.shape.length

/-- The unchecked shape access `dl_tensor.shape[pos]`; out-of-range
positions are undefined behaviour in the source, totalized here with 0
(no claim reads an out-of-range position). -/
def DLTensor.shapeAt (t : DLTensor) (pos : Nat) : Int := t.shape.getD pos 0

/-- The body of `Tensor::numel` (tensor.h lines 88-95) on a non-null
descriptor: 0 when `ndim` is 0, otherwise the product of all `shape`
entries accumulated in the `size_t` variable `numel_` (each `int64_t`
entry converted to `size_t`, products reduced modulo 2^64). -/
def DLTensor.numel (t : DLTensor) : Nat :=
  if t.ndim = 0 then 0
  else t.shape.foldl (fun acc d => acc * toSizeT d % 2 ^ 64) 1

/-- `Tensor::ToDLPack` (tensor.h lines 77-80):
`FT_ENFORCE_NE(tensor_, nullptr, ...)` (spec class: Precondition), then
`tensor_.release()`.  State passing: the returned pair is the raw
descriptor and the post-call handle, whose internal reference is empty. -/
def Tensor.ToDLPack (h : Tensor) : OpOutcome (DLManagedTensor × Tensor) :=
  match h.tensor_ with
  | none => OpOutcome.enforceFail FTError.precondition
  | some t => OpOutcome.ok (t, Tensor.mk none)

/-- `Tensor::n_dim` (tensor.h line 82): reads `tensor_->dl_tensor.ndim`
with no state check; on an empty handle this dereferences null. -/
def Tensor.n_dim (h : Tensor) : OpOutcome Nat :=
  match h.tensor_ with
  | none => OpOutcome.nullDeref
  | some t => OpOutcome.ok t.dl_tensor.ndim

/-- `Tensor::shape(pos)` (tensor.h lines 84-86): reads
`tensor_->dl_tensor.shape[pos]` with no state check. -/
def Tensor.shape (h : Tensor) (pos : Nat) : OpOutcome Int :=
  match h.tensor_ with
  | none => OpOutcome.nullDeref
  | some t => OpOutcome.ok (t.dl_tensor.shapeAt pos)

/-- `Tensor::numel` (tensor.h lines 88-95): calls `n_dim()` with no state
check. -/
def Tensor.numel (h : Tensor) : OpOutcome Nat :=
  match h.tensor_ with
  | none => OpOutcome.nullDeref
  | some t => OpOutcome.ok t.dl_tensor.numel

/-- `Tensor::device_type` (tensor.h lines 107-109): reads
`tensor_->dl_tensor.ctx.device_type` with no state check. -/
def Tensor.device_type (h : Tensor) : OpOutcome Nat :=
  match h.tensor_ with
  | none => OpOutcome.nullDeref
  | some t => OpOutcome.ok t.dl_tensor.ctx.device_type

/-- `Tensor::EnforceDataType<T>` (tensor.h lines 163-169):
`FT_ENFORCE_EQ(t.byte_offset, 0, ...)` then
`FT_ENFORCE(details::IsDataType<T>(t.dtype), ...)`; per the spec taxonomy
both failures are of the TypeMismatch class. -/
def EnforceDataType (ct : CType) (t : DLTensor) : OpOutcome Unit :=
  if t.byte_offset = 0 then
    if IsDataType ct t.dtype then OpOutcome.ok ()
    else OpOutcome.enforceFail FTError.typeMismatch
  else OpOutcome.enforceFail FTError.typeMismatch

/-- `Tensor::data<T>` (tensor.h lines 97-100): dereferences `tensor_`
(null deref on an empty handle, no state check), validates the dtype via
`EnforceDataType<T>`, and returns the buffer address reinterpreted at
type `T`. -/
def Tensor.data (h : Tensor) (ct : CType) : OpOutcome Nat :=
  match h.tensor_ with
  | none => OpOutcome.nullDeref
  | some t =>
    match EnforceDataType ct t.dl_tensor with
    | OpOutcome.ok _ => OpOutcome.ok t.dl_tensor.data
    | OpOutcome.enforceFail e => OpOutcome.enforceFail e
    | OpOutcome.nullDeref => OpOutcome.nullDeref

/-- `Tensor::mutableData<T>` (tensor.h lines 102-105): identical body to
`Tensor::data<T>` apart from constness of the returned pointer. -/
def Tensor.mutableData (h : Tensor) (ct : CType) : OpOutcome Nat :=
  match h.tensor_ with
  | none => OpOutcome.nullDeref
  | some t =>
    match EnforceDataType ct t.dl_tensor with
    | OpOutcome.ok _ => OpOutcome.ok t.dl_tensor.data
    | OpOutcome.enforceFail e => OpOutcome.enforceFail e
    | OpOutcome.nullDeref => OpOutcome.nullDeref

/-- One iteration of the element loop of `Tensor::Print<T>` (tensor.h
lines 139-145): the running sum always accumulates the element; the
element is additionally written when the pre-decrement value of `cnt`
is still nonnegative (`if (cnt-- >= 0)`).  State: written elements,
`cnt`, sum.  Element and sum values are embedded as integers, on which
the `float`/`double` arithmetic of the source is exact in the ranges the
claims use. -/
def printStep (st : List Int × Int × Int) (e : Int) : List Int × Int × Int :=
  ⟨if st.2.1 ≥ 0 then st.1 ++ [e] else st.1, st.2.1 - 1, st.2.2 + e⟩

/-- The element loop of `Tensor::Print<T>` over the buffer contents:
`int cnt = 10; double sum = 0.;` then one `printStep` per element. -/
def printElems (elems : List Int) : List Int × Int × Int :=
  elems.foldl printStep ([], 10, 0)

/-- Sample descriptor: the result of `CreateDLPackTensor<float>({2, 3})`. -/
def descriptor23 : DLManagedTensor := mkDescriptor CType.float32 [2, 3]

/-- Sample foreign zero-dimensional descriptor (`ndim == 0`), as it could
be received across the interchange boundary; the factory itself cannot
produce one. -/
def scalarDescriptor : DLManagedTensor :=
  ⟨⟨1, ⟨kDLCPU, 0⟩, [], ⟨kDLFloat, 32, 1⟩, none, 0⟩⟩

/-- A `size_t` accumulation starting from 0 stays 0. -/
theorem natfold_zero_acc (L : List Nat) :
    L.foldl (fun x y => x * y % 2 ^ 64) 0 = 0 := by
  induction L with
  | nil => rfl
  | cons b tl ih =>
    rw [List.foldl_cons, Nat.zero_mul, Nat.zero_mod]
    exact ih

/-- A `size_t` accumulation over a list containing 0 ends at 0. -/
theorem natfold_of_mem_zero (L : List Nat) (a : Nat) (h : 0 ∈ L) :
    L.foldl (fun x y => x * y % 2 ^ 64) a = 0 := by
  induction L generalizing a with
  | nil => cases h
  | cons b tl ih =>
    rw [List.foldl_cons]
    rcases List.mem_cons.mp h with h0 | h0
    · subst h0
      rw [Nat.mul_zero, Nat.zero_mod]
      exact natfold_zero_acc tl
    · exact ih _ h0

/-- A `size_t` accumulation over positive factors whose full product fits
below 2^64 never wraps: it equals the plain product. -/
theorem natfold_eq_prod (L : List Nat) (a : Nat) (hpos : ∀ x ∈ L, 0 < x)
    (hb : a * L.prod < 2 ^ 64) :
    L.foldl (fun x y => x * y % 2 ^ 64) a = a * L.prod := by
  induction L generalizing a with
  | nil => simp
  | cons b tl ih =>
    have htl : ∀ x ∈ tl, 0 < x := fun x hx => hpos x (List.mem_cons_of_mem b hx)
    have htp : 0 < tl.prod := List.prod_pos htl
    have hassoc : a * (b :: tl).prod = a * b * tl.prod := by
      rw [List.prod_cons, mul_assoc]
    have hlt : a * b * tl.prod < 2 ^ 64 := by rw [← hassoc]; exact hb
    have hab : a * b < 2 ^ 64 :=
      lt_of_le_of_lt (Nat.le_mul_of_pos_right _ htp) hlt
    rw [List.foldl_cons, Nat.mod_eq_of_lt hab, ih (a * b) htl hlt, hassoc]

/-- A `size_t` accumulation starting from 1 over factors whose product is
below 2^64 equals the plain product (zero factors force both sides to 0;
otherwise no intermediate step wraps). -/
theorem natfold_modfree (L : List Nat) (hb : L.prod < 2 ^ 64) :
    L.foldl (fun x y => x * y % 2 ^ 64) 1 = L.prod := by
  by_cases h0 : 0 ∈ L
  · rw [natfold_of_mem_zero L 1 h0, List.prod_eq_zero h0]
  · have hpos : ∀ x ∈ L, 0 < x := fun x hx =>
      Nat.pos_of_ne_zero (fun hx0 => h0 (hx0 ▸ hx))
    have h := natfold_eq_prod L 1 hpos (by simpa using hb)
    simpa using h

/-- A valid nonnegative `int64_t` value converts to `size_t` as its
natural-number value. -/
theorem toSizeT_of_bounds (x : Int) (h0 : 0 ≤ x) (h1 : x < 2 ^ 63) :
    toSizeT x = x.toNat := by
  unfold toSizeT
  rw [Int.emod_eq_of_lt h0 (h1.trans (by norm_num))]

/-- The `size_t` accumulation of `Tensor::numel` over valid nonnegative
`int64_t` entries agrees with the accumulation over their natural-number
values. -/
theorem intfold_eq_natfold (l : List Int) (a : Nat)
    (hnn : ∀ x ∈ l, 0 ≤ x ∧ x < 2 ^ 63) :
    l.foldl (fun acc d => acc * toSizeT d % 2 ^ 64) a
      = (l.map Int.toNat).foldl (fun x y => x * y % 2 ^ 64) a := by
  induction l generalizing a with
  | nil => rfl
  | cons b tl ih =>
    have hb := hnn b (List.mem_cons_self b tl)
    have htl : ∀ x ∈ tl, 0 ≤ x ∧ x < 2 ^ 63 := fun x hx =>
      hnn x (List.mem_cons_of_mem b hx)
    rw [List.map_cons, List.foldl_cons, List.foldl_cons,
      toSizeT_of_bounds b hb.1 hb.2]
    exact ih _ htl

/-- The accumulation of `Tensor::numel` starting from 0 stays 0. -/
theorem intfold_zero_acc (l : List Int) :
    l.foldl (fun acc d => acc * toSizeT d % 2 ^ 64) 0 = 0 := by
  induction l with
  | nil => rfl
  | cons b tl ih =>
    rw [List.foldl_cons, Nat.zero_mul, Nat.zero_mod]
    exact ih

/-- The accumulation of `Tensor::numel` over a shape containing a zero
entry ends at 0. -/
theorem intfold_of_mem_zero (l : List Int) (a : Nat) (h : (0 : Int) ∈ l) :
    l.foldl (fun acc d => acc * toSizeT d % 2 ^ 64) a = 0 := by
  induction l generalizing a with
  | nil => cases h
  | cons b tl ih =>
    rw [List.foldl_cons]
    rcases List.mem_cons.mp h with h0 | h0
    · have hz : toSizeT b = 0 := by rw [← h0]; decide
      rw [hz, Nat.mul_zero, Nat.zero_mod]
      exact intfold_zero_acc tl
    · exact ih _ h0

/-- `Tensor::numel` on a nonempty shape of valid nonnegative `int64_t`
entries whose product is below 2^64 is the plain product of the entries. -/
theorem numel_formula (t : DLTensor)
    (hnn : ∀ x ∈ t.shape, 0 ≤ x ∧ x < 2 ^ 63)
    (hb : (t.shape.map Int.toNat).prod < 2 ^ 64)
    (hne : t.shape ≠ []) :
    t.numel = (t.shape.map Int.toNat).prod := by
  have hlen : ¬ t.ndim = 0 := by
    simpa [DLTensor.ndim, List.length_eq_zero] using hne
  unfold DLTensor.numel
  rw [if_neg hlen, intfold_eq_natfold t.shape 1 hnn, natfold_modfree _ hb]

/-- The 32-bit accumulation of the factory starting from 0 stays 0. -/
theorem wrapfold_zero_acc (l : List Int) :
    l.foldl (fun acc d => wrap32 (acc * d)) 0 = 0 := by
  induction l with
  | nil => rfl
  | cons b tl ih =>
    rw [List.foldl_cons, zero_mul]
    have h : wrap32 0 = 0 := by decide
    rw [h]
    exact ih

/-- The 32-bit accumulation of the factory over a list containing a zero
entry ends at 0. -/
theorem wrapfold_of_mem_zero (l : List Int) (a : Int) (h : (0 : Int) ∈ l) :
    l.foldl (fun acc d => wrap32 (acc * d)) a = 0 := by
  induction l generalizing a with
  | nil => cases h
  | cons b tl ih =>
    rw [List.foldl_cons]
    rcases List.mem_cons.mp h with h0 | h0
    · rw [← h0, mul_zero]
      have h1 : wrap32 0 = 0 := by decide
      rw [h1]
      exact wrapfold_zero_acc tl
    · exact ih _ h0

/-- The factory allocation count for a shape with a zero entry is 0
elements. -/
theorem factoryNumel_of_mem_zero (l : List Int) (h : (0 : Int) ∈ l) :
    factoryNumel l = 0 := by
  unfold factoryNumel
  rw [wrapfold_of_mem_zero l 1 h]
  decide

/-- `details::IsDataType<T>` holds exactly when the stored code equals the
registered code and the stored bit width is the registered one or 0. -/
theorem IsDataType_eq_true_iff (ct : CType) (dt : DLDataType) :
    IsDataType ct dt = true ↔
      (dt.code = DataTypeTraitCode ct ∧
        (dt.bits = sizeofC ct * 8 ∨ dt.bits = 0)) := by
  unfold IsDataType
  simp only [Bool.and_eq_true, Bool.or_eq_true, beq_iff_eq]
  constructor
  · rintro ⟨hc, hb⟩
    exact ⟨hc.symm, hb.elim Or.inr Or.inl⟩
  · rintro ⟨hc, hb⟩
    exact ⟨hc.symm, hb.elim Or.inr Or.inl⟩

/-- Characterization of `Tensor::data<T>` on an owning handle: a typed
pointer to the owned buffer when byte offset and dtype validate, a
TypeMismatch failure otherwise. -/
theorem data_spec (ct : CType) (t : DLManagedTensor) :
    (Tensor.mk (some t)).data ct =
      if t.dl_tensor.byte_offset = 0 ∧
          t.dl_tensor.dtype.code = DataTypeTraitCode ct ∧
          (t.dl_tensor.dtype.bits = sizeofC ct * 8 ∨ t.dl_tensor.dtype.bits = 0)
      then OpOutcome.ok t.dl_tensor.data
      else OpOutcome.enforceFail FTError.typeMismatch := by
  show (match EnforceDataType ct t.dl_tensor with
    | OpOutcome.ok _ => OpOutcome.ok t.dl_tensor.data
    | OpOutcome.enforceFail e => OpOutcome.enforceFail e
    | OpOutcome.nullDeref => OpOutcome.nullDeref) = _
  unfold EnforceDataType
  by_cases h1 : t.dl_tensor.byte_offset = 0
  · by_cases h2 : IsDataType ct t.dl_tensor.dtype = true
    · rw [if_pos h1, if_pos h2,
        if_pos ⟨h1, (IsDataType_eq_true_iff ct t.dl_tensor.dtype).mp h2⟩]
    · rw [if_pos h1, if_neg h2, if_neg (fun hc =>
        h2 ((IsDataType_eq_true_iff ct t.dl_tensor.dtype).mpr hc.2))]
  · rw [if_neg h1, if_neg (fun hc => h1 hc.1)]

/-- Claim C1: the factory is specified to accumulate `numel` with a
64-bit-safe accumulator, but `std::accumulate` is called with the `int`
literal 1 as initial value, so every intermediate product is narrowed to
a 32-bit `int`.  At shape `[65536, 65536]` the code computes `numel = 0`
and sizes the data buffer with 0 elements, while the specified 64-bit
accumulation yields 4294967296. -/
theorem C1_factory_numel_narrows_to_int :
    factoryNumel [65536, 65536] = 0 ∧
    factoryNumelSpec [65536, 65536] = 4294967296 ∧
    CreateDLPackTensorAllocs CType.float32 [65536, 65536] =
      [Alloc.managedStruct, Alloc.shapeArray 2, Alloc.dataBuffer 4 0] := by
  refine ⟨by decide, by decide, by decide⟩

/-- Claim C2: the diagnostic print is claimed to list exactly
`min(numel, 10)` elements; the loop guard `if (cnt-- >= 0)` with
`cnt = 10` actually admits 11 iterations, so a 12-element buffer has 11
elements listed under the "first 10 elems" header.  The claimed
5-element scenario is unaffected: all 5 elements are listed and the sum
of all elements is 15. -/
theorem C2_print_lists_eleven_elements :
    ((printElems [1, 2, 3, 4, 5, 6, 7, 8, 9, 10, 11, 12]).1.length = 11 ∧
      (printElems [1, 2, 3, 4, 5, 6, 7, 8, 9, 10, 11, 12]).1.length ≠
        min ([1, 2, 3, 4, 5, 6, 7, 8, 9, 10, 11, 12] : List Int).length 10) ∧
    ((printElems [1, 2, 3, 4, 5]).1 = [1, 2, 3, 4, 5] ∧
      (printElems [1, 2, 3, 4, 5]).2.2 = 15) := by
  refine ⟨⟨by decide, by decide⟩, by decide, by decide⟩

/-- Claim C3, counterexample: after a successful export the handle is
empty, and a metadata query (`n_dim`) on the empty handle is a null
dereference of the internal pointer, not an enforcement failure of the
Precondition class as the claim states. -/
theorem C3_metadata_on_empty_not_precondition :
    (Tensor.mk (some (mkDescriptor CType.float32 [1]))).ToDLPack =
      OpOutcome.ok (mkDescriptor CType.float32 [1], Tensor.mk none) ∧
    (Tensor.mk none).n_dim = OpOutcome.nullDeref ∧
    ¬ (Tensor.mk none).n_dim = OpOutcome.enforceFail FTError.precondition := by
  refine ⟨rfl, rfl, by decide⟩

/-- Claim C3 as amended: on a handle in the Empty state only the export
operation (`ToDLPack`) fails fast with a Precondition violation; every
other operation — the metadata queries `n_dim`, `shape`, `numel`,
`device_type` and the typed accesses `data`, `mutableData` — performs no
state check and dereferences the null internal pointer instead. -/
theorem C3_only_export_checks_state (ct : CType) (h : Tensor)
    (he : h.tensor_ = none) :
    h.ToDLPack = OpOutcome.enforceFail FTError.precondition ∧
    h.n_dim = OpOutcome.nullDeref ∧
    h.shape 0 = OpOutcome.nullDeref ∧
    h.numel = OpOutcome.nullDeref ∧
    h.device_type = OpOutcome.nullDeref ∧
    h.data ct = OpOutcome.nullDeref ∧
    h.mutableData ct = OpOutcome.nullDeref := by
  obtain ⟨t⟩ := h
  have ht : t = none := he
  subst ht
  exact ⟨rfl, rfl, rfl, rfl, rfl, rfl, rfl⟩

/-- Claim C3, witness: the amended statement at the concrete empty
handle with the float element type. -/
theorem C3_only_export_checks_state_witness :
    (Tensor.mk none).ToDLPack = OpOutcome.enforceFail FTError.precondition ∧
    (Tensor.mk none).n_dim = OpOutcome.nullDeref ∧
    (Tensor.mk none).shape 0 = OpOutcome.nullDeref ∧
    (Tensor.mk none).numel = OpOutcome.nullDeref ∧
    (Tensor.mk none).device_type = OpOutcome.nullDeref ∧
    (Tensor.mk none).data CType.float32 = OpOutcome.nullDeref ∧
    (Tensor.mk none).mutableData CType.float32 = OpOutcome.nullDeref :=
  C3_only_export_checks_state CType.float32 (Tensor.mk none) rfl

/-- Claim C6: exporting an owning handle succeeds, returns the raw
descriptor and leaves the internal reference empty; a second export on
the resulting empty handle fails with a Precondition violation. -/
theorem C6_second_export_precondition (t : DLManagedTensor) :
    (Tensor.mk (some t)).ToDLPack = OpOutcome.ok (t, Tensor.mk none) ∧
    (Tensor.mk none).ToDLPack = OpOutcome.enforceFail FTError.precondition :=
  ⟨rfl, rfl⟩

/-- Claim C9: for every supported element type, the factory called with
an empty shape list fails with an InvalidArgument violation, and its
allocation trace is empty — the enforce runs before any allocation. -/
theorem C9_empty_shape_rejected_before_alloc (ct : CType) :
    CreateDLPackTensor ct [] = OpOutcome.enforceFail FTError.invalidArgument ∧
    CreateDLPackTensorAllocs ct [] = [] :=
  ⟨rfl, rfl⟩

/-- Claim C4: for every supported element type and nonempty shape
`[d0,...,dk]` (valid nonnegative `int64_t` entries whose product fits in
`size_t`), the freshly created tensor has `numel() = d0*...*dk`,
`n_dim() = k+1`, and `shape(i) = di` for every valid `i`. -/
theorem C4_fresh_tensor_metadata (ct : CType) (shape : List Int)
    (d : DLManagedTensor)
    (hne : shape ≠ [])
    (hnn : ∀ x ∈ shape, 0 ≤ x ∧ x < 2 ^ 63)
    (hb : (shape.map Int.toNat).prod < 2 ^ 64)
    (hok : CreateDLPackTensor ct shape = OpOutcome.ok d) :
    d.dl_tensor.numel = (shape.map Int.toNat).prod ∧
    d.dl_tensor.ndim = shape.length ∧
    ∀ i, i < shape.length → d.dl_tensor.shapeAt i = shape.getD i 0 := by
  have hlen : ¬ shape.length = 0 := by
    simpa [List.length_eq_zero] using hne
  unfold CreateDLPackTensor at hok
  rw [if_neg hlen] at hok
  injection hok with hd
  subst hd
  refine ⟨?_, rfl, fun i _ => rfl⟩
  exact numel_formula _ hnn hb hne

/-- Claim C4, witness: the fresh float tensor of shape `[2, 3]` has
`numel() = 6`, `n_dim() = 2`, `shape(0) = 2` and `shape(1) = 3`. -/
theorem C4_fresh_tensor_metadata_witness :
    descriptor23.dl_tensor.numel = (([2, 3] : List Int).map Int.toNat).prod ∧
    descriptor23.dl_tensor.ndim = 2 ∧
    descriptor23.dl_tensor.shapeAt 0 = 2 ∧
    descriptor23.dl_tensor.shapeAt 1 = 3 := by
  have h := C4_fresh_tensor_metadata CType.float32 [2, 3] descriptor23
    (by decide) (by decide) (by decide) (by decide)
  exact ⟨h.1, h.2.1, h.2.2 0 (by decide), h.2.2 1 (by decide)⟩

/-- Claim C5: on an owning handle, the typed views `data<T>` and
`mutableData<T>` return the owned buffer address exactly when the byte
offset is 0, the stored dtype code equals the registered code of `T`,
and the stored bit width equals that of `T` or is 0; in every other case
they raise a TypeMismatch failure, and the two variants agree. -/
theorem C5_typed_view_validation (ct : CType) (t : DLManagedTensor) :
    ((Tensor.mk (some t)).data ct = OpOutcome.ok t.dl_tensor.data ↔
      (t.dl_tensor.byte_offset = 0 ∧
        t.dl_tensor.dtype.code = DataTypeTraitCode ct ∧
        (t.dl_tensor.dtype.bits = sizeofC ct * 8 ∨
          t.dl_tensor.dtype.bits = 0))) ∧
    ((Tensor.mk (some t)).data ct =
        OpOutcome.enforceFail FTError.typeMismatch ↔
      ¬ (t.dl_tensor.byte_offset = 0 ∧
        t.dl_tensor.dtype.code = DataTypeTraitCode ct ∧
        (t.dl_tensor.dtype.bits = sizeofC ct * 8 ∨
          t.dl_tensor.dtype.bits = 0))) ∧
    (Tensor.mk (some t)).mutableData ct = (Tensor.mk (some t)).data ct := by
  have hd := data_spec ct t
  refine ⟨?_, ?_, rfl⟩
  · rw [hd]
    split
    · rename_i hc
      simp [hc]
    · rename_i hc
      simp [hc]
  · rw [hd]
    split
    · rename_i hc
      simp [hc]
    · rename_i hc
      simp [hc]

/-- Claim C7: exporting a freshly created handle and wrapping the
exported descriptor in a new handle yields the same `n_dim`, the same
`shape(i)` for every `i`, the same `device_type`, and the very same data
buffer address — no copy is made. -/
theorem C7_export_rewrap_roundtrip (ct : CType) (shape : List Int)
    (d d2 : DLManagedTensor) (h2 : Tensor)
    (hok : CreateDLPackTensor ct shape = OpOutcome.ok d)
    (hexp : (Tensor.mk (some d)).ToDLPack = OpOutcome.ok (d2, h2)) :
    (Tensor.mk (some d2)).n_dim = (Tensor.mk (some d)).n_dim ∧
    (∀ i, (Tensor.mk (some d2)).shape i = (Tensor.mk (some d)).shape i) ∧
    (Tensor.mk (some d2)).device_type = (Tensor.mk (some d)).device_type ∧
    d2.dl_tensor.data = d.dl_tensor.data := by
  have hpair : OpOutcome.ok (d, Tensor.mk none)
      = OpOutcome.ok (d2, h2) := hexp
  injection hpair with hp
  have hd : d2 = d := (congrArg Prod.fst hp).symm
  subst hd
  exact ⟨rfl, fun i => rfl, rfl, rfl⟩

/-- Claim C7, witness: the roundtrip at the fresh float tensor of shape
`[2, 3]`. -/
theorem C7_export_rewrap_roundtrip_witness :
    (Tensor.mk (some descriptor23)).n_dim
      = (Tensor.mk (some descriptor23)).n_dim ∧
    (Tensor.mk (some descriptor23)).shape 0
      = (Tensor.mk (some descriptor23)).shape 0 ∧
    (Tensor.mk (some descriptor23)).device_type
      = (Tensor.mk (some descriptor23)).device_type ∧
    descriptor23.dl_tensor.data = descriptor23.dl_tensor.data := by
  have h := C7_export_rewrap_roundtrip CType.float32 [2, 3] descriptor23
    descriptor23 (Tensor.mk none) (by decide) (by decide)
  exact ⟨h.1, h.2.1 0, h.2.2.1, h.2.2.2⟩

/-- Claim C8: `numel()` returns 0 (not 1) on a descriptor with
`ndim == 0`, and the product of all dimension sizes on a descriptor with
`ndim > 0` (valid nonnegative `int64_t` entries, product below 2^64). -/
theorem C8_numel_zero_dim_convention (t : DLManagedTensor)
    (hnn : ∀ x ∈ t.dl_tensor.shape, 0 ≤ x ∧ x < 2 ^ 63)
    (hb : (t.dl_tensor.shape.map Int.toNat).prod < 2 ^ 64) :
    (t.dl_tensor.ndim = 0 → (Tensor.mk (some t)).numel = OpOutcome.ok 0) ∧
    (0 < t.dl_tensor.ndim →
      (Tensor.mk (some t)).numel =
        OpOutcome.ok ((t.dl_tensor.shape.map Int.toNat).prod)) := by
  constructor
  · intro h0
    show OpOutcome.ok t.dl_tensor.numel = OpOutcome.ok 0
    unfold DLTensor.numel
    rw [if_pos h0]
  · intro hpos
    have hne : t.dl_tensor.shape ≠ [] := by
      intro hnil
      rw [DLTensor.ndim, hnil] at hpos
      exact absurd hpos (by decide)
    show OpOutcome.ok t.dl_tensor.numel = _
    rw [numel_formula t.dl_tensor hnn hb hne]

/-- Claim C8, witness: a foreign zero-dimensional descriptor reports
`numel() = 0`, and the fresh `[2, 3]` float tensor reports
`numel() = 6`. -/
theorem C8_numel_zero_dim_convention_witness :
    (Tensor.mk (some scalarDescriptor)).numel = OpOutcome.ok 0 ∧
    (Tensor.mk (some descriptor23)).numel = OpOutcome.ok 6 := by
  constructor
  · exact (C8_numel_zero_dim_convention scalarDescriptor
      (by decide) (by decide)).1 rfl
  · have h := (C8_numel_zero_dim_convention descriptor23
      (by decide) (by decide)).2 (by decide)
    have hp : (descriptor23.dl_tensor.shape.map Int.toNat).prod = 6 := by
      decide
    rw [hp] at h
    exact h

/-- Claim C10: the factory validates only that the shape list is
nonempty — any nonempty shape, including one with zero or negative
entries, is accepted without error — and a shape containing a 0 entry
yields a tensor with `numel() = 0` whose data buffer was requested with
0 elements. -/
theorem C10_shape_entries_not_validated (ct : CType) (shape : List Int)
    (hne : shape ≠ []) :
    CreateDLPackTensor ct shape = OpOutcome.ok (mkDescriptor ct shape) ∧
    ((0 : Int) ∈ shape →
      (mkDescriptor ct shape).dl_tensor.numel = 0 ∧
      CreateDLPackTensorAllocs ct shape =
        [Alloc.managedStruct, Alloc.shapeArray shape.length,
          Alloc.dataBuffer (sizeofC ct) 0]) := by
  have hlen : ¬ shape.length = 0 := by
    simpa [List.length_eq_zero] using hne
  constructor
  · unfold CreateDLPackTensor
    rw [if_neg hlen]
  · intro h0
    constructor
    · have hnd : ¬ (mkDescriptor ct shape).dl_tensor.ndim = 0 := hlen
      unfold DLTensor.numel
      rw [if_neg hnd]
      exact intfold_of_mem_zero shape 1 h0
    · unfold CreateDLPackTensorAllocs
      rw [if_neg hlen, factoryNumel_of_mem_zero shape h0]

/-- Claim C10, witness: the shape `[-1, 0]` — nonempty, with a negative
and a zero entry — is accepted, and yields `numel() = 0` with a
0-element data buffer request. -/
theorem C10_shape_entries_not_validated_witness :
    CreateDLPackTensor CType.float32 [-1, 0] =
      OpOutcome.ok (mkDescriptor CType.float32 [-1, 0]) ∧
    (mkDescriptor CType.float32 [-1, 0]).dl_tensor.numel = 0 ∧
    CreateDLPackTensorAllocs CType.float32 [-1, 0] =
      [Alloc.managedStruct, Alloc.shapeArray 2, Alloc.dataBuffer 4 0] := by
  have h := C10_shape_entries_not_validated CType.float32 [-1, 0]
    (by decide)
  exact ⟨h.1, (h.2 (by decide)).1, (h.2 (by decide)).2⟩

end FT
